import Mathlib

/-!
Verification of the Wikipedia-chatbot pipeline (`src/chatbot.py` and
`src/main.py`) against its natural-language specification.

The two source files implement the same `WikiChatbot` class; `chatbot.py`
additionally wires a Langfuse observability client through every step and
formats some error messages differently.  Both are embedded below:

* the external collaborators (Wikipedia search/page provider, Ollama
  inference endpoint, spelling corrector, Langfuse client) are modelled by
  a `Behaviour` record: one function per external operation, returning
  `Except` (an exception carrying the Python `str(e)` text) or, for the
  token stream, the list of tokens yielded before an optional failure;
* Python strings are modelled by `String`, with slicing/`lower`/`strip`
  modelled on the underlying character list (`pyTake`, `pyLower`,
  `pyStrip`), and a Python value that may be `None` by `Option String`
  (`pyShow` renders `None` the way an f-string does);
* each method of `WikiChatbot` becomes a Lean function over `Behaviour`;
  the generator `answer_stream` becomes a function returning the list of
  yielded tokens, together with the value the pipeline records as the
  outer trace output (`Outcome`) and the prompts submitted to the
  streaming inference call (`RunResult.streamPrompts`), which mirror the
  observable Langfuse span inputs.
-/

namespace WikiChat

/-- ASCII letter test, the character class of the regex `[a-zA-Z]+` used by
`extract_topic`. -/
def isAsciiLetter (c : Char) : Bool :=
  (('a' ≤ c && c ≤ 'z') || ('A' ≤ c && c ≤ 'Z'))

/-- Python `str.lower()`, modelled on ASCII characters
(`chatbot.py:25`, `main.py:221`). -/
def pyLower (s : String) : String :=
  String.mk (s.data.map Char.toLower)

/-- Python slicing `s[:n]` on code points (`page.summary[:300]`,
`content[:6000]`). -/
def pyTake (s : String) (n : Nat) : String :=
  String.mk (s.data.take n)

/-- Python `str.strip()`: remove leading and trailing whitespace
(`resp["message"]["content"].strip()`). -/
def pyStrip (s : String) : String :=
  String.mk (((s.data.dropWhile Char.isWhitespace).reverse.dropWhile
    Char.isWhitespace).reverse)

/-- Rendering of a Python value that is either a `str` or `None` inside an
f-string: `None` prints as `"None"`. -/
def pyShow : Option String → String
  | some s => s
  | none => "None"

/-- `re.findall(r"[a-zA-Z]+", q)`: the maximal runs of ASCII letters of a
character list, in order. -/
def letterRuns : List Char → List (List Char)
  | [] => []
  | c :: cs =>
    if isAsciiLetter c then
      match cs, letterRuns cs with
      | d :: _, r :: rs => if isAsciiLetter d then (c :: r) :: rs else [c] :: r :: rs
      | _, rest => [c] :: rest
    else letterRuns cs

/-- The fixed stop-word list of `extract_topic`, exactly the `.split()` of
the source string (`chatbot.py:26-29`, `main.py:222-225`); `"about"`
appears twice in the source, as here. -/
def stopWords : List String :=
  ["what", "who", "why", "where", "when", "how", "explain", "define",
   "describe", "tell", "me", "about", "characteristics", "features",
   "types", "information", "info", "about", "of"]

/-- `words = [w for w in re.findall(r"[a-zA-Z]+", q) if w not in remove_words]`
applied to the lower-cased question. -/
def extractWords (question : String) : List String :=
  ((letterRuns (pyLower question).data).map (fun r => String.mk r)).filter
    (fun w => !stopWords.contains w)

/-- `WikiChatbot.extract_topic` (`chatbot.py:22-38`, `main.py:219-229`).
The spelling corrector is an external library call modelled as
`correction : String → Option String`, following the `pyspellchecker`
interface in which `SpellChecker.correction` returns `None` when it finds
no correction; the source returns that result unchanged:
`topic = self.spell.correction(words[-1]) if words else question`. -/
def extractTopic (correction : String → Option String) (question : String) :
    Option String :=
  match (extractWords question).getLast? with
  | some w => correction w
  | none => some question

/-- One fixed behaviour of all external collaborators for one pipeline
invocation.  `search` takes the query as the Python value passed to
`wikipedia.search` (the fallback query is the extracted topic, which may be
`None`); `fetchSummary` models `wikipedia.page(title, auto_suggest=False).summary`,
`fetchContent` models `wikipedia.page(title, auto_suggest=True).content`;
`chat` is the single-shot `ollama.chat` response content, and `streamChat`
the streaming call: the tokens it yields, then `some e` if it raises after
them.  `lfFails` models a Langfuse client whose trace creation raises
(`chatbot.py` creates the outer trace before its `try`, so such an
exception escapes the generator). -/
structure Behaviour where
  lfFails : Bool
  correction : String → Option String
  search : Option String → Except String (List String)
  fetchSummary : String → Except String String
  fetchContent : String → Except String String
  chat : String → Except String String
  streamChat : String → List String × Option String

/-- The extracted topic of a question under a behaviour. -/
def topicOf (b : Behaviour) (question : String) : Option String :=
  extractTopic b.correction question

/-- `WikiChatbot.search` (`chatbot.py:43-58`, `main.py:231-239`): both
provider calls live inside a single `try`; any exception from either call
yields `[]`; the fallback call runs only after the primary call returned an
empty list without raising. -/
def searchFn (b : Behaviour) (question : String) (topic : Option String) :
    List String :=
  match b.search (some question) with
  | Except.error _ => []
  | Except.ok r =>
    if r.isEmpty then
      match b.search topic with
      | Except.error _ => []
      | Except.ok r2 => r2
    else r

/-- One snippet of `rank_pages` (`chatbot.py:66-73`, `main.py:244-251`):
`f"### {title}\n{snippet}"` where the snippet is the first 300 characters
of the page summary, degraded to the fixed placeholder if the preview
fetch raises. -/
def mkSnippet (b : Behaviour) (title : String) : String :=
  match b.fetchSummary title with
  | Except.ok s => "### " ++ title ++ "\n" ++ pyTake s 300
  | Except.error _ => "### " ++ title ++ "\n" ++ "Unable to load summary."

/-- The snippets of `rank_pages`: one per title of `results[:5]`. -/
def snippetsOf (b : Behaviour) (results : List String) : List String :=
  (results.take 5).map (mkSnippet b)

/-- The disambiguation prompt of `rank_pages` (`chatbot.py:77-86`,
`main.py:255-264`), with `combined = "\n\n".join(snippets)`. -/
def rankPrompt (b : Behaviour) (question : String) (results : List String) :
    String :=
  "\nSeveral Wikipedia pages were found. Choose the SINGLE BEST page.\n\nUser Question: \"" ++
    question ++ "\"\n\nPages:\n" ++
    String.intercalate "\n\n" (snippetsOf b results) ++
    "\n\nReturn ONLY the page title.\n"

/-- The inference requests issued by one call to `rank_pages`: the source
performs exactly one `ollama.chat` call, with the disambiguation prompt. -/
def rankRequests (b : Behaviour) (question : String) (results : List String) :
    List String :=
  [rankPrompt b question results]

/-- `WikiChatbot.rank_pages` (`chatbot.py:61-100`, `main.py:241-271`):
returns the stripped response content; an inference failure propagates to
the caller as the exception text. -/
def rankPages (b : Behaviour) (question : String) (results : List String) :
    Except String String :=
  match b.chat (rankPrompt b question results) with
  | Except.ok resp => Except.ok (pyStrip resp)
  | Except.error e => Except.error e

/-- `WikiChatbot.get_page` (`chatbot.py:114-129`, `main.py:273-282`):
fuzzy fetch of the full content, truncated to 6000 characters plus `"..."`
when longer; any provider error becomes `None`. -/
def getPage (b : Behaviour) (title : String) : Option String :=
  match b.fetchContent title with
  | Except.error _ => none
  | Except.ok content =>
    some (if 6000 < content.length then pyTake content 6000 ++ "..." else content)

/-- The no-results message `f"No Wikipedia pages found for '{topic}'."`
(`chatbot.py:197`, `main.py:304`). -/
def noResultsMsg (topic : Option String) : String :=
  "No Wikipedia pages found for \x27" ++ pyShow topic ++ "\x27."

/-- The missing-content message `f"Could not fetch page '{best}'."`
(`chatbot.py:223`, `main.py:315`). -/
def noContentMsg (best : String) : String :=
  "Could not fetch page \x27" ++ best ++ "\x27."

/-- `chatbot.py` message for a ranking failure:
`f"Error selecting page: {str(e)}"`. -/
def rankErrMsgCb (e : String) : String :=
  "Error selecting page: " ++ e

/-- `chatbot.py` message for a streaming failure:
`f"Error generating answer: {str(e)}"`. -/
def genErrMsgCb (e : String) : String :=
  "Error generating answer: " ++ e

/-- The final generation prompt of `chatbot.py:236-246`: the f-string
interpolates only `content` (the question is in scope but does not appear
in the template). -/
def streamPromptCb (content : String) : String :=
  "\n    Use the following content to answer:\n\n    " ++ content ++
    "\n\n    Format:\n    - Definition\n    - Background\n    - Important Details\n    - Notes\n    "

/-- The final generation prompt of `main.py:319-329`, which interpolates
both the question and the content. -/
def streamPromptMain (question content : String) : String :=
  "\nUse the following content to answer: " ++ question ++ "\n\n" ++ content ++
    "\n\nFormat:\n- Definition\n- Background\n- Important Details\n- Notes\n"

/-- The value `chatbot.py` records as `outer.output`: `"completed"` with
the page used and the concatenated final answer, or the error message. -/
inductive Outcome where
  | completed (pageUsed finalAnswer : String)
  | error (msg : String)
deriving DecidableEq

/-- Observable result of one `chatbot.py` `answer_stream` invocation: the
yielded tokens, the recorded outer trace output, and the prompts submitted
to the streaming inference call (the inputs of the `ollama_stream_call`
spans). -/
structure RunResult where
  tokens : List String
  outer : Outcome
  streamPrompts : List String
deriving DecidableEq

/-- The streaming tail of `chatbot.py.answer_stream` (lines 248-269): each
token is forwarded as it arrives; a mid-stream exception appends
`"\n" + f"Error generating answer: {e}"` after the already-yielded tokens. -/
def afterFetch (b : Behaviour) (best content : String) : RunResult :=
  match b.streamChat (streamPromptCb content) with
  | (toks, none) => ⟨toks, Outcome.completed best (String.join toks), [streamPromptCb content]⟩
  | (toks, some e) =>
    ⟨toks ++ ["\n" ++ genErrMsgCb e], Outcome.error (genErrMsgCb e), [streamPromptCb content]⟩

/-- The content-fetch stage of `chatbot.py.answer_stream` (lines 219-233):
the language-model-selected title is used directly as the fetch key; a
missing or falsy (empty) content yields the could-not-fetch message. -/
def afterRank (b : Behaviour) (best : String) : RunResult :=
  match getPage b best with
  | none => ⟨[noContentMsg best], Outcome.error (noContentMsg best), []⟩
  | some c =>
    if c = "" then ⟨[noContentMsg best], Outcome.error (noContentMsg best), []⟩
    else afterFetch b best c

/-- `chatbot.py.answer_stream` (lines 178-275), given that the Langfuse
client does not raise.  The unreachable handlers (`extract_topic` and
`search` cannot raise under this model, and nothing reaches the outer
fatal-error handler) have no branch here. -/
def runCb (b : Behaviour) (question : String) : RunResult :=
  let topic := extractTopic b.correction question
  let results := searchFn b question topic
  if results.isEmpty then
    ⟨[noResultsMsg topic], Outcome.error (noResultsMsg topic), []⟩
  else
    match rankPages b question results with
    | Except.error e => ⟨[rankErrMsgCb e], Outcome.error (rankErrMsgCb e), []⟩
    | Except.ok best => afterRank b best

/-- The generator `chatbot.py.answer_stream` as seen by its caller:
`outer = self.lf.trace(...)` runs before the `try`, so a raising Langfuse
client makes the generator raise on first use; otherwise the caller
receives the token list of `runCb`. -/
def answerStreamCb (b : Behaviour) (question : String) :
    Except String (List String) :=
  if b.lfFails then Except.error "Langfuse client error"
  else Except.ok (runCb b question).tokens

/-- The streaming tail of `main.py.answer_stream` (lines 331-336): a
mid-stream exception reaches the outer handler, which appends
`f"\nError: {str(e)}"`. -/
def afterFetchMain (b : Behaviour) (question best content : String) :
    List String :=
  match b.streamChat (streamPromptMain question content) with
  | (toks, none) => toks
  | (toks, some e) => toks ++ ["\nError: " ++ e]

/-- `main.py.answer_stream` (lines 294-336): the whole body is inside one
`try`; a `rank_pages` failure reaches the outer handler and yields the
single token `f"\nError: {str(e)}"`. -/
def answerStreamMain (b : Behaviour) (question : String) : List String :=
  let topic := extractTopic b.correction question
  let results := searchFn b question topic
  if results.isEmpty then [noResultsMsg topic]
  else
    match rankPages b question results with
    | Except.error e => ["\nError: " ++ e]
    | Except.ok best =>
      match getPage b best with
      | none => [noContentMsg best]
      | some c =>
        if c = "" then [noContentMsg best]
        else afterFetchMain b question best c

/-- `main.py.answer` (lines 338-343): `result = ""` then `result += token`
over the stream. -/
def answerMain (b : Behaviour) (question : String) : String :=
  (answerStreamMain b question).foldl (fun r t => r ++ t) ""

/-! ## C2: error handling of the two-tier search -/

/-- C2 (amended): a provider error in either search attempt is never
propagated; when the primary search returns a non-empty list it is the
result; the fallback with the topic runs, and its results are returned,
only when the primary search returned an empty list without raising; when
the primary search raises, the whole search evaluates to `[]` and the
fallback is not consulted. -/
theorem search_error_characterization (b : Behaviour) (q : String)
    (t : Option String) :
    (∀ r, b.search (some q) = Except.ok r → r.isEmpty = false →
      searchFn b q t = r) ∧
    (∀ r, b.search (some q) = Except.ok [] → b.search t = Except.ok r →
      searchFn b q t = r) ∧
    (∀ e, b.search (some q) = Except.ok [] → b.search t = Except.error e →
      searchFn b q t = []) ∧
    (∀ e, b.search (some q) = Except.error e → searchFn b q t = []) := by
  refine ⟨?_, ?_, ?_, ?_⟩
  · intro r h hne
    simp [searchFn, h, hne]
  · intro r h h2
    simp [searchFn, h, h2]
  · intro e h h2
    simp [searchFn, h, h2]
  · intro e h
    simp [searchFn, h]

/-- Behaviour whose provider raises on the primary query `"q"` but would
answer the fallback query with `["A"]`. -/
def bSearchErr : Behaviour where
  lfFails := false
  correction := fun _ => none
  search := fun o => if o = some "q" then Except.error "timeout" else Except.ok ["A"]
  fetchSummary := fun _ => Except.error "e"
  fetchContent := fun _ => Except.error "e"
  chat := fun _ => Except.error "e"
  streamChat := fun _ => ([], none)

/-- C2 is false as stated: the primary search raises, the fallback search
would return `["A"]`, yet `search` returns `[]` — the fallback attempt is
skipped because both calls share a single `try` block. -/
theorem search_primary_error_skips_fallback :
    bSearchErr.search (some "q") = Except.error "timeout" ∧
    bSearchErr.search (some "t") = Except.ok ["A"] ∧
    searchFn bSearchErr "q" (some "t") = [] :=
  ⟨rfl, rfl, rfl⟩

/-- Behaviour whose primary search succeeds with zero results and whose
fallback search returns `["R"]`. -/
def bSearchFb : Behaviour where
  lfFails := false
  correction := fun _ => none
  search := fun o => if o = some "q" then Except.ok [] else Except.ok ["R"]
  fetchSummary := fun _ => Except.error "e"
  fetchContent := fun _ => Except.error "e"
  chat := fun _ => Except.error "e"
  streamChat := fun _ => ([], none)

/-- Witness for `search_error_characterization`: with an empty primary
result the fallback result is returned. -/
theorem search_error_characterization_witness :
    searchFn bSearchFb "q" (some "t") = ["R"] :=
  (search_error_characterization bSearchFb "q" (some "t")).2.1 ["R"] rfl rfl

/-! ## C4: the topic extractor and the missing-correction case -/

/-- A spelling corrector that finds no correction for any word (modern
`pyspellchecker` returns `None` in this case). -/
def noCorrection : String → Option String := fun _ => none

/-- C4: on the failing input, `extract_topic` returns the corrector's
`None` — not the original token `"xzqjv"` that the spec promises — while
the no-remaining-tokens case does return the original question. -/
theorem extract_topic_no_correction_bug :
    extractTopic noCorrection "what is xzqjv" = none ∧
    (none : Option String) ≠ some "xzqjv" ∧
    extractTopic noCorrection "123 !?" = some "123 !?" :=
  ⟨rfl, by decide, rfl⟩

/-! ## C5: content truncation in `get_page` -/

/-- C5: when the fuzzy fetch succeeds, content strictly longer than 6000
characters is returned as its first 6000 characters plus the 3-character
marker, total length exactly 6003; content of length at most 6000 is
returned unmodified. -/
theorem get_page_truncation (b : Behaviour) (title content : String)
    (h : b.fetchContent title = Except.ok content) :
    (6000 < content.length →
      getPage b title = some (pyTake content 6000 ++ "...") ∧
      (pyTake content 6000 ++ "...").length = 6003) ∧
    (content.length ≤ 6000 → getPage b title = some content) := by
  constructor
  · intro hlen
    constructor
    · simp [getPage, h, hlen]
    · have h1 : (pyTake content 6000).length = min 6000 content.length := by
        show (content.data.take 6000).length = min 6000 content.length
        exact List.length_take 6000 content.data
      have h2 : (pyTake content 6000 ++ "...").length =
          (pyTake content 6000).length + ("..." : String).length :=
        String.length_append _ _
      rw [h2, h1, Nat.min_eq_left (Nat.le_of_lt hlen)]
      rfl
  · intro hle
    have hnot : ¬ 6000 < content.length := by omega
    simp [getPage, h, hnot]

/-- An article text of 6001 characters. -/
def bigContent : String := String.mk (List.replicate 6001 'a')

theorem bigContent_length : bigContent.length = 6001 := by
  show (List.replicate 6001 'a').length = 6001
  exact List.length_replicate 6001 'a'

/-- Behaviour whose content provider returns the 6001-character article
for the title `"Long"` and a 5-character article otherwise. -/
def bFetchBig : Behaviour where
  lfFails := false
  correction := fun _ => none
  search := fun _ => Except.ok []
  fetchSummary := fun _ => Except.error "e"
  fetchContent := fun t => if t = "Long" then Except.ok bigContent else Except.ok "short"
  chat := fun _ => Except.error "e"
  streamChat := fun _ => ([], none)

/-- Witness for `get_page_truncation` on both sides of the 6000 bound. -/
theorem get_page_truncation_witness :
    (getPage bFetchBig "Long" = some (pyTake bigContent 6000 ++ "...") ∧
      (pyTake bigContent 6000 ++ "...").length = 6003) ∧
    getPage bFetchBig "S" = some "short" :=
  ⟨(get_page_truncation bFetchBig "Long" bigContent rfl).1
      (by rw [bigContent_length]; omega),
   (get_page_truncation bFetchBig "S" "short" rfl).2 (by decide)⟩

/-! ## C9: the non-streaming `answer` concatenates the stream -/

/-- C9: for every behaviour of the collaborators and every question, the
non-streaming `answer` equals the concatenation, in emission order, of the
tokens yielded by `answer_stream`. -/
theorem answer_eq_join_stream (b : Behaviour) (q : String) :
    answerMain b q = String.join (answerStreamMain b q) :=
  rfl

/-! ## C3: empty search results produce a single fixed message token -/

/-- C3 (amended): when both search attempts yield an empty result list,
both versions of `answer_stream` emit exactly one token, equal to
`"No Wikipedia pages found for '<topic>'."` instantiated with the
extracted topic, record it as the pipeline error, and terminate. -/
theorem no_results_single_token (b : Behaviour) (q : String)
    (h : searchFn b q (topicOf b q) = []) :
    (runCb b q).tokens = [noResultsMsg (topicOf b q)] ∧
    (runCb b q).outer = Outcome.error (noResultsMsg (topicOf b q)) ∧
    answerStreamMain b q = [noResultsMsg (topicOf b q)] := by
  have h' : searchFn b q (extractTopic b.correction q) = [] := h
  refine ⟨?_, ?_, ?_⟩ <;> simp [runCb, answerStreamMain, topicOf, h']

/-- Behaviour whose provider returns zero results for every query and
whose corrector keeps every word. -/
def bNoRes : Behaviour where
  lfFails := false
  correction := fun w => some w
  search := fun _ => Except.ok []
  fetchSummary := fun _ => Except.error "e"
  fetchContent := fun _ => Except.error "e"
  chat := fun _ => Except.error "e"
  streamChat := fun _ => ([], none)

/-- C3 is false as stated: on a question whose search finds nothing, the
sole emitted token is `"No Wikipedia pages found for 'water'."`, which
differs from the template `"No results found for 'water'."` the claim
prescribes. -/
theorem no_results_message_differs :
    (runCb bNoRes "what is water").tokens =
      ["No Wikipedia pages found for \x27water\x27."] ∧
    ("No Wikipedia pages found for \x27water\x27." : String) ≠
      "No results found for \x27water\x27." :=
  ⟨rfl, by decide⟩

/-- A second zero-results behaviour, for the witness. -/
def bNoResW : Behaviour where
  lfFails := false
  correction := fun w => some w
  search := fun _ => Except.ok []
  fetchSummary := fun _ => Except.error "e"
  fetchContent := fun _ => Except.error "e"
  chat := fun _ => Except.error "e"
  streamChat := fun _ => ([], none)

/-- Witness for `no_results_single_token`. -/
theorem no_results_single_token_witness :
    (runCb bNoResW "x").tokens = [noResultsMsg (topicOf bNoResW "x")] :=
  (no_results_single_token bNoResW "x" rfl).1

/-! ## C6: one ranking request, at most 5 snippets, placeholder on failure -/

/-- C6: for a non-empty candidate list, `rank_pages` issues exactly one
inference request; its prompt is built from `min 5 |results|` snippets (so
at most 5), the i-th snippet coming from the i-th candidate title in the
original order; a failing preview fetch degrades its snippet to the fixed
placeholder instead of failing the ranking step. -/
theorem rank_pages_one_request_five_snippets (b : Behaviour) (q : String)
    (results : List String) (hne : results ≠ []) :
    (rankRequests b q results).length = 1 ∧
    (snippetsOf b results).length = min 5 results.length ∧
    (snippetsOf b results).length ≤ 5 ∧
    (∀ i, i < 5 → (snippetsOf b results)[i]? = (results[i]?).map (mkSnippet b)) ∧
    (∀ t e, b.fetchSummary t = Except.error e →
      mkSnippet b t = "### " ++ t ++ "\n" ++ "Unable to load summary.") ∧
    rankPrompt b q results =
      "\nSeveral Wikipedia pages were found. Choose the SINGLE BEST page.\n\nUser Question: \"" ++
        q ++ "\"\n\nPages:\n" ++
        String.intercalate "\n\n" (snippetsOf b results) ++
        "\n\nReturn ONLY the page title.\n" := by
  refine ⟨rfl, ?_, ?_, ?_, ?_, rfl⟩
  · simp [snippetsOf, List.length_take]
  · simp only [snippetsOf, List.length_map, List.length_take]
    omega
  · intro i hi
    simp [snippetsOf, List.getElem?_map, List.getElem?_take_of_lt hi]
  · intro t e h
    simp [mkSnippet, h]

/-- Behaviour whose preview fetches all fail. -/
def bRankSnips : Behaviour where
  lfFails := false
  correction := fun _ => none
  search := fun _ => Except.ok []
  fetchSummary := fun _ => Except.error "timeout"
  fetchContent := fun _ => Except.error "e"
  chat := fun _ => Except.ok "T"
  streamChat := fun _ => ([], none)

/-- Seven candidate titles. -/
def titlesSeven : List String := ["A", "B", "C", "D", "E", "F", "G"]

/-- Witness for `rank_pages_one_request_five_snippets`: 7 candidates give
exactly one request with exactly 5 snippets. -/
theorem rank_pages_one_request_five_snippets_witness :
    (rankRequests bRankSnips "q" titlesSeven).length = 1 ∧
    (snippetsOf bRankSnips titlesSeven).length = min 5 titlesSeven.length :=
  ⟨(rank_pages_one_request_five_snippets bRankSnips "q" titlesSeven (by decide)).1,
   (rank_pages_one_request_five_snippets bRankSnips "q" titlesSeven (by decide)).2.1⟩

/-! ## C7: the trimmed model response is used verbatim, unvalidated -/

/-- C7: whatever text the inference collaborator returns for the ranking
request, `rank_pages` returns it with surrounding whitespace stripped and
nothing else — no membership check against the candidate list — and the
pipeline proceeds to fetch content keyed by exactly that string
(`afterRank b (pyStrip resp)` starts with `getPage b (pyStrip resp)`). -/
theorem rank_pages_trimmed_verbatim (b : Behaviour) (q : String)
    (results : List String) (resp : String)
    (h : b.chat (rankPrompt b q results) = Except.ok resp) :
    rankPages b q results = Except.ok (pyStrip resp) ∧
    (searchFn b q (topicOf b q) = results → results.isEmpty = false →
      runCb b q = afterRank b (pyStrip resp)) := by
  constructor
  · simp [rankPages, h]
  · intro hres hne
    have hres' : searchFn b q (extractTopic b.correction q) = results := hres
    simp [runCb, hres', hne, rankPages, h]

/-- Behaviour whose ranking response is `"  Zebra  "`, not a member of the
candidate list. -/
def bRankResp : Behaviour where
  lfFails := false
  correction := fun _ => none
  search := fun _ => Except.ok ["A", "B"]
  fetchSummary := fun _ => Except.error "e"
  fetchContent := fun _ => Except.error "e"
  chat := fun _ => Except.ok "  Zebra  "
  streamChat := fun _ => ([], none)

/-- Witness for `rank_pages_trimmed_verbatim`: the selected title is the
trimmed response `"Zebra"`, which is not among the candidates. -/
theorem rank_pages_trimmed_verbatim_witness :
    rankPages bRankResp "q" ["A", "B"] = Except.ok "Zebra" ∧
    "Zebra" ∉ (["A", "B"] : List String) :=
  ⟨(rank_pages_trimmed_verbatim bRankResp "q" ["A", "B"] "  Zebra  " rfl).1,
   by decide⟩

/-! ## C1: the orchestrator's outer boundary -/

/-- In the streaming stage, a recorded error means the token list ends
with the error message prefixed by a newline. -/
theorem afterFetch_error_last (b : Behaviour) (best c m : String)
    (h : (afterFetch b best c).outer = Outcome.error m) :
    ∃ l, (afterFetch b best c).tokens.getLast? = some l ∧
      (l = m ∨ l = "\n" ++ m) := by
  unfold afterFetch at h ⊢
  rcases hsc : b.streamChat (streamPromptCb c) with ⟨toks, err⟩
  rw [hsc] at h
  cases err with
  | none => simp at h
  | some e =>
    have hm : genErrMsgCb e = m := by simpa using h
    refine ⟨"\n" ++ genErrMsgCb e, ?_, Or.inr (by rw [hm])⟩
    simp [List.getLast?_concat]

/-- In the fetch-and-stream tail, a recorded error means the token list
ends with the error message, possibly newline-prefixed. -/
theorem afterRank_error_last (b : Behaviour) (best m : String)
    (h : (afterRank b best).outer = Outcome.error m) :
    ∃ l, (afterRank b best).tokens.getLast? = some l ∧
      (l = m ∨ l = "\n" ++ m) := by
  unfold afterRank at h ⊢
  rcases hp : getPage b best with _ | c
  · rw [hp] at h
    have hm : noContentMsg best = m := by simpa using h
    exact ⟨m, by simp [← hm], Or.inl rfl⟩
  · rw [hp] at h
    by_cases hc : c = ""
    · subst hc
      have hm : noContentMsg best = m := by simpa using h
      exact ⟨m, by simp [← hm], Or.inl rfl⟩
    · have h' : (afterFetch b best c).outer = Outcome.error m := by
        simpa [hc] using h
      have hx := afterFetch_error_last b best c m h'
      simpa [hc] using hx

/-- C1 (amended): provided the observability client's trace creation does
not raise, `answer_stream` raises no exception to its caller, and whenever
the run does not complete (the recorded outer output is an error), the
token sequence is non-empty and its last token carries the human-readable
error message (the message itself or newline-prefixed).  The unconditional
at-least-one-token guarantee holds only in that failing case: see the
counterexample for a successful run with an empty inference stream. -/
theorem answerStream_no_raise_and_failure_token (b : Behaviour) (q : String)
    (hlf : b.lfFails = false) :
    answerStreamCb b q = Except.ok (runCb b q).tokens ∧
    (∀ m, (runCb b q).outer = Outcome.error m →
      ∃ l, (runCb b q).tokens.getLast? = some l ∧ (l = m ∨ l = "\n" ++ m)) := by
  refine ⟨by simp [answerStreamCb, hlf], ?_⟩
  intro m hm
  unfold runCb at hm ⊢
  by_cases hres : (searchFn b q (extractTopic b.correction q)).isEmpty
  · rw [if_pos hres] at hm ⊢
    have hmsg : noResultsMsg (extractTopic b.correction q) = m := by simpa using hm
    exact ⟨m, by simp [← hmsg], Or.inl rfl⟩
  · rw [if_neg hres] at hm ⊢
    rcases hr : rankPages b q (searchFn b q (extractTopic b.correction q)) with e | best
    · rw [hr] at hm
      have hmsg : rankErrMsgCb e = m := by simpa using hm
      exact ⟨m, by simp [← hmsg], Or.inl rfl⟩
    · rw [hr] at hm
      have hm' : (afterRank b best).outer = Outcome.error m := by simpa using hm
      have hx := afterRank_error_last b best m hm'
      simpa using hx

/-- A behaviour whose Langfuse client raises at trace creation. -/
def bLfRaise : Behaviour where
  lfFails := true
  correction := fun _ => none
  search := fun _ => Except.ok []
  fetchSummary := fun _ => Except.error "e"
  fetchContent := fun _ => Except.error "e"
  chat := fun _ => Except.error "e"
  streamChat := fun _ => ([], none)

/-- A behaviour under which every step succeeds but the inference stream
yields zero tokens before completing normally. -/
def bEmptyStream : Behaviour where
  lfFails := false
  correction := fun w => some w
  search := fun _ => Except.ok ["T"]
  fetchSummary := fun _ => Except.ok "S"
  fetchContent := fun _ => Except.ok "C"
  chat := fun _ => Except.ok "T"
  streamChat := fun _ => ([], none)

/-- C1 is false as stated: a raising observability client makes the
generator raise (the outer trace is created before the `try`), and a run
in which every collaborator succeeds but the inference stream yields no
tokens completes with an empty token sequence. -/
theorem answerStream_raise_or_empty_counterexample :
    answerStreamCb bLfRaise "q" = Except.error "Langfuse client error" ∧
    answerStreamCb bEmptyStream "q" = Except.ok [] ∧
    (runCb bEmptyStream "q").outer = Outcome.completed "T" "" :=
  ⟨rfl, rfl, rfl⟩

/-- A failing-run behaviour with a working Langfuse client. -/
def bRunFail : Behaviour where
  lfFails := false
  correction := fun w => some w
  search := fun _ => Except.ok []
  fetchSummary := fun _ => Except.error "e"
  fetchContent := fun _ => Except.error "e"
  chat := fun _ => Except.error "e"
  streamChat := fun _ => ([], none)

/-- Witness for `answerStream_no_raise_and_failure_token`. -/
theorem answerStream_no_raise_witness :
    answerStreamCb bRunFail "water" = Except.ok (runCb bRunFail "water").tokens :=
  (answerStream_no_raise_and_failure_token bRunFail "water" rfl).1

/-! ## C8: a mid-stream inference failure appends one error token -/

/-- C8: if the pipeline reaches streaming and the inference stream raises
after yielding `toks`, the output of `answer_stream` is exactly `toks`,
unchanged and in order, followed by exactly one final token carrying the
error text. -/
theorem midstream_error_single_final_token (b : Behaviour)
    (q best content : String) (toks : List String) (e : String)
    (hres : (searchFn b q (topicOf b q)).isEmpty = false)
    (hrank : rankPages b q (searchFn b q (topicOf b q)) = Except.ok best)
    (hpage : getPage b best = some content) (hc : content ≠ "")
    (hstream : b.streamChat (streamPromptCb content) = (toks, some e)) :
    (runCb b q).tokens = toks ++ ["\n" ++ genErrMsgCb e] ∧
    (runCb b q).outer = Outcome.error (genErrMsgCb e) := by
  have hres' : (searchFn b q (extractTopic b.correction q)).isEmpty = false := hres
  have hrank' : rankPages b q (searchFn b q (extractTopic b.correction q)) =
      Except.ok best := hrank
  constructor <;>
    simp [runCb, hres', hrank', afterRank, hpage, hc, afterFetch, hstream]

/-- A behaviour whose inference stream yields `["a", "b"]` and then raises
with text `"boom"`. -/
def bStreamBoom : Behaviour where
  lfFails := false
  correction := fun w => some w
  search := fun _ => Except.ok ["T"]
  fetchSummary := fun _ => Except.ok "S"
  fetchContent := fun _ => Except.ok "C"
  chat := fun _ => Except.ok "T"
  streamChat := fun _ => (["a", "b"], some "boom")

/-- Witness for `midstream_error_single_final_token`. -/
theorem midstream_error_single_final_token_witness :
    (runCb bStreamBoom "q").tokens = ["a", "b"] ++ ["\n" ++ genErrMsgCb "boom"] :=
  (midstream_error_single_final_token bStreamBoom "q" "T" "C" ["a", "b"] "boom"
    rfl rfl rfl (by decide) rfl).1

/-! ## C10: the final generation prompt of `chatbot.py` -/

/-- C10 (amended): the final prompt of `chatbot.py` is built from the
fetched content alone — it contains the content and the four fixed section
headers, and the streaming stage submits that prompt whatever the question
was — but nothing keeps the question's text from occurring in it, since
the question may occur in the content or in the fixed template itself. -/
theorem final_prompt_content_only (content : String) :
    (∃ pre post, streamPromptCb content = pre ++ content ++ post) ∧
    (∃ pre post, streamPromptCb content = pre ++ "- Definition" ++ post) ∧
    (∃ pre post, streamPromptCb content = pre ++ "- Background" ++ post) ∧
    (∃ pre post, streamPromptCb content = pre ++ "- Important Details" ++ post) ∧
    (∃ pre post, streamPromptCb content = pre ++ "- Notes" ++ post) ∧
    (∀ (b : Behaviour) (best : String),
      (afterFetch b best content).streamPrompts = [streamPromptCb content]) := by
  refine ⟨⟨"\n    Use the following content to answer:\n\n    ",
      "\n\n    Format:\n    - Definition\n    - Background\n    - Important Details\n    - Notes\n    ",
      rfl⟩, ?_, ?_, ?_, ?_, ?_⟩
  · refine ⟨"\n    Use the following content to answer:\n\n    " ++ content ++
      "\n\n    Format:\n    ",
      "\n    - Background\n    - Important Details\n    - Notes\n    ", ?_⟩
    simp only [streamPromptCb, String.append_assoc]
    rfl
  · refine ⟨"\n    Use the following content to answer:\n\n    " ++ content ++
      "\n\n    Format:\n    - Definition\n    ",
      "\n    - Important Details\n    - Notes\n    ", ?_⟩
    simp only [streamPromptCb, String.append_assoc]
    rfl
  · refine ⟨"\n    Use the following content to answer:\n\n    " ++ content ++
      "\n\n    Format:\n    - Definition\n    - Background\n    ",
      "\n    - Notes\n    ", ?_⟩
    simp only [streamPromptCb, String.append_assoc]
    rfl
  · refine ⟨"\n    Use the following content to answer:\n\n    " ++ content ++
      "\n\n    Format:\n    - Definition\n    - Background\n    - Important Details\n    ",
      "\n    ", ?_⟩
    simp only [streamPromptCb, String.append_assoc]
    rfl
  · intro b best
    unfold afterFetch
    rcases hsc : b.streamChat (streamPromptCb content) with ⟨toks, err⟩
    cases err <;> simp

/-- A fully succeeding behaviour for a run of the `chatbot.py` pipeline. -/
def bPromptRun : Behaviour where
  lfFails := false
  correction := fun w => some w
  search := fun _ => Except.ok ["T"]
  fetchSummary := fun _ => Except.ok "S"
  fetchContent := fun _ => Except.ok "C"
  chat := fun _ => Except.ok "T"
  streamChat := fun _ => (["x"], none)

/-- C10 is false as stated: for the question `"Definition"` the pipeline
reaches the final generation step and the one prompt it submits to the
streaming inference call contains the question's text. -/
theorem final_prompt_contains_question_text :
    (runCb bPromptRun "Definition").streamPrompts = [streamPromptCb "C"] ∧
    streamPromptCb "C" =
      "\n    Use the following content to answer:\n\n    C\n\n    Format:\n    - " ++
        "Definition" ++
        "\n    - Background\n    - Important Details\n    - Notes\n    " :=
  ⟨rfl, rfl⟩

end WikiChat
